import Mathlib

/-!
Verification of the Xrpg frontend (Next.js/React dungeon-crawler client).

This file gives a shallow embedding of the client-side logic the claims are
about:

* the data model of `src/lib/types.ts` (`GameStateSnapshot` and friends);
* the `ActionButtons` component (which buttons it renders, as the list of
  `GameAction` payloads its buttons would deliver to `onAction`);
* the `CombatResult` component (which blocks it renders);
* the MCP HTTP client (`src/lib/mcp-client.ts`): the request each function
  issues, with the network modelled as an explicit outcome value;
* the API-key storage cipher of the settings panel (`xorEncrypt` /
  `xorDecrypt` / `getStoredApiKey`), with the browser's `btoa` / `atob`
  modelled as real base64 over code-unit lists (`btoa` throws - returns
  `none` - on code units above 255, per the Web platform);
* the grid store's notification operations;
* the `maxThreat` / `highestRarity` reductions inside `summarizeForUI`
  (`src/app/actions.tsx`).

JavaScript strings are modelled as `List Nat` of UTF-16 code units where the
cipher is concerned, and as Lean `String` elsewhere (all involved text is
ASCII).  JavaScript numbers that are used as non-negative integers are `Nat`.
-/

/- ===================== Data model (src/lib/types.ts) ===================== -/

/-- RoomAtmosphere from types.ts. -/
inductive RoomAtmosphere where
  | safe | tense | dangerous | mysterious | ominous
deriving DecidableEq

/-- ThreatLevel from types.ts: `"trivial" | "normal" | "dangerous" | "deadly"`. -/
inductive ThreatLevel where
  | trivial | normal | dangerous | deadly
deriving DecidableEq

/-- ItemRarity from types.ts: `"common" | "uncommon" | "rare" | "legendary"`. -/
inductive ItemRarity where
  | common | uncommon | rare | legendary
deriving DecidableEq

/-- Item type union from types.ts: `"weapon" | "armor" | "consumable" | "key" | "treasure"`. -/
inductive ItemType where
  | weapon | armor | consumable | key | treasure
deriving DecidableEq

/-- Character status union from types.ts. -/
inductive CharStatus where
  | healthy | wounded | critical | dead
deriving DecidableEq

/-- Map-cell status union from types.ts. -/
inductive CellStatus where
  | unknown | visited | current | adjacent | exitCell
deriving DecidableEq

/-- EventType from types.ts. -/
inductive EventType where
  | combat | discovery | movement | interaction | death | victory
deriving DecidableEq

/-- GamePhase from types.ts. -/
inductive GamePhase where
  | earlyGame | midGame | lateGame | exitPhase
deriving DecidableEq

/-- NotificationType from types.ts. -/
inductive NotificationType where
  | info | success | warning | error | combat
deriving DecidableEq

/-- CharacterView from types.ts. -/
structure CharacterView where
  id : String
  name : String
  hp : Nat
  maxHp : Nat
  strength : Nat
  dexterity : Nat
  isAlive : Bool
  status : CharStatus
deriving DecidableEq

/-- RoomView from types.ts. -/
structure RoomView where
  id : String
  name : String
  description : String
  isEntrance : Bool
  isExit : Bool
  x : Nat
  y : Nat
  exits : List String
  atmosphere : Option RoomAtmosphere
  isFirstVisit : Option Bool
deriving DecidableEq

/-- MonsterView from types.ts.  `threat` and `isDefeated` are optional fields. -/
structure MonsterView where
  id : String
  name : String
  description : String
  hp : Nat
  maxHp : Nat
  damage : Nat
  threat : Option ThreatLevel
  isDefeated : Option Bool
deriving DecidableEq

/-- ItemView from types.ts. -/
structure ItemView where
  id : String
  name : String
  description : String
  type : ItemType
  damage : Option Nat
  armor : Option Nat
  healing : Option Nat
  isEquipped : Bool
  rarity : Option ItemRarity
  isNew : Option Bool
deriving DecidableEq

/-- EquipmentView from types.ts. -/
structure EquipmentView where
  weapon : Option ItemView
  armor : Option ItemView
deriving DecidableEq

/-- MapCell from types.ts. -/
structure MapCell where
  x : Nat
  y : Nat
  roomId : Option String
  status : CellStatus
  hasPlayer : Bool
  exits : Option (List String)
deriving DecidableEq

/-- EventInfo from types.ts. -/
structure EventInfo where
  type : EventType
  subtype : String
  entities : List String
deriving DecidableEq

/-- AttackResult from types.ts. -/
structure AttackResult where
  attackerName : String
  targetName : String
  damage : Nat
  wasHit : Bool
  wasCritical : Bool
  remainingHp : Nat
deriving DecidableEq

/-- EnhancedCombatResult from types.ts. -/
structure EnhancedCombatResult where
  playerAttack : Option AttackResult
  enemyAttack : Option AttackResult
  enemyDefeated : Bool
  playerDied : Bool
deriving DecidableEq

/-- InventoryDelta from types.ts. -/
structure InventoryDelta where
  added : Option (List String)
  removed : Option (List String)
  used : Option (List String)
deriving DecidableEq

/-- GameContext from types.ts.  `explorationPct` is used only as data here. -/
structure GameContext where
  phase : GamePhase
  turnsInRoom : Nat
  consecutiveCombat : Nat
  explorationPct : Nat
deriving DecidableEq

/-- GameStateSnapshot from types.ts.  Optional TypeScript fields are `Option`s. -/
structure GameStateSnapshot where
  character : Option CharacterView
  currentRoom : Option RoomView
  monsters : Option (List MonsterView)
  roomItems : Option (List ItemView)
  inventory : Option (List ItemView)
  equipment : Option EquipmentView
  mapGrid : Option (List (List MapCell))
  gameOver : Bool
  victory : Bool
  turnNumber : Nat
  message : Option String
  event : Option EventInfo
  combatResult : Option EnhancedCombatResult
  inventoryDelta : Option InventoryDelta
  context : Option GameContext
deriving DecidableEq

/-- NotificationData from types.ts. -/
structure NotificationData where
  id : String
  type : NotificationType
  title : String
  message : String
  timestamp : Nat
deriving DecidableEq

/- ============= ActionButtons component (src/unnamed/part_001) ============= -/

/-- GameAction from ActionButtons: the payload a button passes to `onAction`. -/
structure GameAction where
  tool : String
  args : List (String × String)
  label : String
deriving DecidableEq

/-- The `hasGame` local of `ActionButtons`: `!!gameState?.character`. -/
def hasGame (gameState : Option GameStateSnapshot) : Bool :=
  (gameState.bind GameStateSnapshot.character).isSome

/-- The `isAlive` local of `ActionButtons`: `gameState?.character?.isAlive ?? false`. -/
def isAliveOf (gameState : Option GameStateSnapshot) : Bool :=
  ((gameState.bind GameStateSnapshot.character).map CharacterView.isAlive).getD false

/-- The `isGameOver` local of `ActionButtons`: `gameState?.gameOver ?? false`. -/
def isGameOverOf (gameState : Option GameStateSnapshot) : Bool :=
  (gameState.map GameStateSnapshot.gameOver).getD false

/-- The `isVictory` local of `ActionButtons`: `gameState?.victory ?? false`. -/
def isVictoryOf (gameState : Option GameStateSnapshot) : Bool :=
  (gameState.map GameStateSnapshot.victory).getD false

/-- The `exits` local of `ActionButtons`: `gameState?.currentRoom?.exits ?? []`. -/
def exitsOf (gameState : Option GameStateSnapshot) : List String :=
  ((gameState.bind GameStateSnapshot.currentRoom).map RoomView.exits).getD []

/-- The `monsters` local of `ActionButtons`: `gameState?.monsters ?? []`. -/
def monstersOf (gameState : Option GameStateSnapshot) : List MonsterView :=
  (gameState.bind GameStateSnapshot.monsters).getD []

/-- The `roomItems` local of `ActionButtons`: `gameState?.roomItems ?? []`. -/
def roomItemsOf (gameState : Option GameStateSnapshot) : List ItemView :=
  (gameState.bind GameStateSnapshot.roomItems).getD []

/-- The `inventory` local of `ActionButtons`: `gameState?.inventory ?? []`. -/
def inventoryOf (gameState : Option GameStateSnapshot) : List ItemView :=
  (gameState.bind GameStateSnapshot.inventory).getD []

/-- The `consumables` local of `ActionButtons`. -/
def consumablesOf (gameState : Option GameStateSnapshot) : List ItemView :=
  (inventoryOf gameState).filter (fun i => i.type == ItemType.consumable)

/-- The `equippables` local of `ActionButtons`: weapon/armor items not already equipped. -/
def equippablesOf (gameState : Option GameStateSnapshot) : List ItemView :=
  (inventoryOf gameState).filter
    (fun i => (i.type == ItemType.weapon || i.type == ItemType.armor) && !i.isEquipped)

/-- Payload of the New Game button (ActionButtons line 82). -/
def newGameAction : GameAction :=
  { tool := "new_game", args := [("character_name", "Hero")], label := "New Game" }

/-- Payload of the Look button. -/
def lookAction : GameAction := { tool := "look", args := [], label := "Look" }

/-- Payload of the Stats button. -/
def statsAction : GameAction := { tool := "stats", args := [], label := "Stats" }

/-- Payload of the Inventory button. -/
def inventoryAction : GameAction := { tool := "inventory", args := [], label := "Inventory" }

/-- Payload of the Map button. -/
def mapAction : GameAction := { tool := "map", args := [], label := "Map" }

/-- Payload of a movement button for a given exit direction. -/
def moveAction (direction : String) : GameAction :=
  { tool := "move", args := [("direction", direction)], label := "Go " ++ direction }

/-- Payload of an attack button for a given monster. -/
def attackAction (monster : MonsterView) : GameAction :=
  { tool := "attack", args := [("target_id", monster.id)], label := "Attack " ++ monster.name }

/-- Payload of a take button for a given room item. -/
def takeAction (item : ItemView) : GameAction :=
  { tool := "take", args := [("item_id", item.id)], label := "Take " ++ item.name }

/-- Payload of a use button for a given consumable. -/
def useAction (item : ItemView) : GameAction :=
  { tool := "use", args := [("item_id", item.id)], label := "Use " ++ item.name }

/-- Payload of an equip button for a given equippable item. -/
def equipAction (item : ItemView) : GameAction :=
  { tool := "equip", args := [("item_id", item.id)], label := "Equip " ++ item.name }

/-- The New Game block of `ActionButtons` (part_001 lines 74-91), rendered
when `!hasGame || isGameOver || isVictory`. -/
def newGamePart (gameState : Option GameStateSnapshot) : List GameAction :=
  if !(hasGame gameState) || isGameOverOf gameState || isVictoryOf gameState then
    [newGameAction]
  else []

/-- The General Actions block (part_001 lines 96-143). -/
def generalPart : List GameAction :=
  [lookAction, statsAction, inventoryAction, mapAction]

/-- The Movement block (part_001 lines 145-176), rendered when
`exits.length > 0 && monsters.length === 0`. -/
def movementPart (gameState : Option GameStateSnapshot) : List GameAction :=
  if (exitsOf gameState).length > 0 && (monstersOf gameState).length == 0 then
    (exitsOf gameState).map moveAction
  else []

/-- The Combat block (part_001 lines 186-214), rendered when
`monsters.length > 0`. -/
def combatPart (gameState : Option GameStateSnapshot) : List GameAction :=
  if (monstersOf gameState).length > 0 then (monstersOf gameState).map attackAction else []

/-- The Items-in-Room block (part_001 lines 216-244). -/
def takePart (gameState : Option GameStateSnapshot) : List GameAction :=
  if (roomItemsOf gameState).length > 0 then (roomItemsOf gameState).map takeAction else []

/-- The Use-Item block (part_001 lines 246-274). -/
def usePart (gameState : Option GameStateSnapshot) : List GameAction :=
  if (consumablesOf gameState).length > 0 then (consumablesOf gameState).map useAction else []

/-- The Equip block (part_001 lines 276-304). -/
def equipPart (gameState : Option GameStateSnapshot) : List GameAction :=
  if (equippablesOf gameState).length > 0 then (equippablesOf gameState).map equipAction else []

/-- The action blocks rendered only for an active game (part_001 line 94):
`hasGame && isAlive && !isVictory`. -/
def activePart (gameState : Option GameStateSnapshot) : List GameAction :=
  if hasGame gameState && isAliveOf gameState && !(isVictoryOf gameState) then
    generalPart ++ movementPart gameState ++ combatPart gameState ++
      takePart gameState ++ usePart gameState ++ equipPart gameState
  else []

/-- The `ActionButtons` component of src/unnamed/part_001, modelled as the list
of button payloads it renders, in document order. -/
def actionButtons (gameState : Option GameStateSnapshot) : List GameAction :=
  newGamePart gameState ++ activePart gameState

/-- The move buttons `ActionButtons` renders for a given state. -/
def movesRendered (gameState : Option GameStateSnapshot) : List GameAction :=
  (actionButtons gameState).filter (fun a => a.tool == "move")

/-- The equip buttons `ActionButtons` renders for a given state. -/
def equipsRendered (gameState : Option GameStateSnapshot) : List GameAction :=
  (actionButtons gameState).filter (fun a => a.tool == "equip")

/-- A monster is alive when its HP is positive (spec section 3: the defeated
flag becomes true once HP reaches 0). -/
def monsterIsAlive (m : MonsterView) : Bool :=
  decide (0 < m.hp)

/- ============ CombatResult component (src/unnamed/part_003) ============ -/

/-- The four conditional blocks of the `CombatResult` component. -/
inductive CombatBlock where
  | playerAttackBlock | enemyDefeatedBlock | enemyAttackBlock | playerDiedBlock
deriving DecidableEq

/-- The `CombatResult` component of src/unnamed/part_003, modelled as the list
of blocks it renders, in document order.  The enemy-attack block is guarded by
`result.enemyAttack && !result.enemyDefeated` (line 89). -/
def combatResultBlocks (result : EnhancedCombatResult) : List CombatBlock :=
  (if result.playerAttack.isSome then [CombatBlock.playerAttackBlock] else []) ++
  (if result.enemyDefeated then [CombatBlock.enemyDefeatedBlock] else []) ++
  (if result.enemyAttack.isSome && !result.enemyDefeated then
    [CombatBlock.enemyAttackBlock]
  else []) ++
  (if result.playerDied then [CombatBlock.playerDiedBlock] else [])

/- ================ MCP HTTP client (src/lib/mcp-client.ts) ================ -/

/-- Body of a `POST /mcp/call` request: `{ name, arguments }`.  Tool arguments
are string-to-string records (all wrappers pass string values). -/
structure McpCallBody where
  name : String
  arguments : List (String × String)
deriving DecidableEq

/-- An HTTP request as issued by the client (method, path relative to
`BACKEND_URL`, optional JSON body).  The `Content-Type: application/json`
header, common to every call, is elided. -/
structure HttpRequest where
  method : String
  path : String
  body : Option McpCallBody
deriving DecidableEq

namespace MCPClient

/-- The `callTool` function (mcp-client.ts lines 65-97): a POST to `/mcp/call`
with body `{ name, arguments: args }`. -/
def callTool (name : String) (args : List (String × String)) : HttpRequest :=
  { method := "POST", path := "/mcp/call", body := some { name := name, arguments := args } }

/-- The `newGame` wrapper (mcp-client.ts line 101). -/
def newGame (characterName : String) : HttpRequest :=
  callTool ("new_game") [("character_name", characterName)]

/-- The `look` wrapper. -/
def look : HttpRequest := callTool ("look") []

/-- The `move` wrapper. -/
def move (direction : String) : HttpRequest :=
  callTool ("move") [("direction", direction)]

/-- The `attack` wrapper. -/
def attack (targetId : String) : HttpRequest :=
  callTool ("attack") [("target_id", targetId)]

/-- The `take` wrapper. -/
def take (itemId : String) : HttpRequest :=
  callTool ("take") [("item_id", itemId)]

/-- The `use` wrapper. -/
def use (itemId : String) : HttpRequest :=
  callTool ("use") [("item_id", itemId)]

/-- The `equip` wrapper. -/
def equip (itemId : String) : HttpRequest :=
  callTool ("equip") [("item_id", itemId)]

/-- The `inventory` wrapper. -/
def inventory : HttpRequest := callTool ("inventory") []

/-- The `stats` wrapper. -/
def stats : HttpRequest := callTool ("stats") []

/-- The `map` wrapper. -/
def map : HttpRequest := callTool ("map") []

end MCPClient

/-- An HTTP response, reduced to its status code. -/
structure HttpResponse where
  status : Nat
deriving DecidableEq

/-- The Fetch API's `Response.ok`: status in the range 200-299. -/
def HttpResponse.ok (r : HttpResponse) : Bool :=
  decide (200 ≤ r.status) && decide (r.status < 300)

/-- Outcome of a `fetch` call: either a response arrived, or the promise
rejected (network failure) / an error was thrown. -/
inductive FetchOutcome where
  | response (r : HttpResponse)
  | networkError
deriving DecidableEq

/-- The request issued by `healthCheck` (mcp-client.ts line 21). -/
def healthCheckRequest : HttpRequest :=
  { method := "GET", path := "/health", body := none }

/-- The `healthCheck` function (mcp-client.ts lines 19-29) as a function of the
fetch outcome: returns `response.ok` on a response and `false` on any thrown
error or rejection (the `catch` arm). -/
def healthCheck (outcome : FetchOutcome) : Bool :=
  match outcome with
  | FetchOutcome.response r => r.ok
  | FetchOutcome.networkError => false

/- ===== API-key storage cipher (SettingsPanel, src/unnamed/part_006) ===== -/

/-- Code units of an ASCII Lean string, for writing JS strings as `List Nat`. -/
def strCodes (s : String) : List Nat :=
  s.toList.map Char.toNat

/-- One XOR pass, carrying the running index `i`; `key.getD (i % klen) 0`
models `key.charCodeAt(i % key.length)` (for the empty key, `charCodeAt`
yields NaN, which `^` coerces to 0, and the `getD` default is likewise 0). -/
def jsXorAux (key : List Nat) (klen : Nat) : Nat → List Nat → List Nat
  | _, [] => []
  | i, c :: cs => (c ^^^ key.getD (i % klen) 0) :: jsXorAux key klen (i + 1) cs

/-- The XOR loop shared by `xorEncrypt` and `xorDecrypt` (part_006 lines 12-16
and 23-29): character at index `i` is XORed with `key.charCodeAt(i % key.length)`. -/
def jsXor (text key : List Nat) : List Nat :=
  jsXorAux key key.length 0 text

/-- The standard base64 alphabet as character codes: `A-Z`, `a-z`, `0-9`, `+`, `/`. -/
def b64Table : List Nat :=
  ((List.range 26).map (fun n => n + 65)) ++ ((List.range 26).map (fun n => n + 97)) ++
    ((List.range 10).map (fun n => n + 48)) ++ [43, 47]

/-- Character code of a base64 symbol; symbol 64 denotes the `=` pad (code 61). -/
def b64CodeOfSextet (s : Nat) : Nat :=
  if s = 64 then 61 else b64Table.getD s 0

/-- Index of a code in a table, `none` when absent. -/
def idxInTable (c : Nat) : List Nat → Option Nat
  | [] => none
  | x :: xs => if x = c then some 0 else (idxInTable c xs).map (fun n => n + 1)

/-- Base64 symbol of a character code (64 for the `=` pad), `none` for codes
outside the alphabet. -/
def b64SextetOfCode (c : Nat) : Option Nat :=
  if c = 61 then some 64 else idxInTable c b64Table

/-- Base64 encoding of a byte list as symbols 0-63, with 64 as the `=` pad:
three bytes become four sextets, with the standard one- and two-byte tails. -/
def b64enc : List Nat → List Nat
  | [] => []
  | [b0] => [b0 / 4, b0 % 4 * 16, 64, 64]
  | [b0, b1] => [b0 / 4, b0 % 4 * 16 + b1 / 16, b1 % 16 * 4, 64]
  | b0 :: b1 :: b2 :: rest =>
    b0 / 4 :: (b0 % 4 * 16 + b1 / 16) :: (b1 % 16 * 4 + b2 / 64) :: b2 % 64 :: b64enc rest

/-- Base64 decoding of a symbol list back to bytes (symbol 64 is the pad). -/
def b64dec : List Nat → List Nat
  | c0 :: c1 :: c2 :: c3 :: rest =>
    if c2 = 64 then [c0 * 4 + c1 / 16]
    else if c3 = 64 then [c0 * 4 + c1 / 16, c1 % 16 * 16 + c2 / 4]
    else (c0 * 4 + c1 / 16) :: (c1 % 16 * 16 + c2 / 4) :: (c2 % 4 * 64 + c3) :: b64dec rest
  | _ => []

/-- Sequence a list of optional values, failing if any is `none`. -/
def seqOpt : List (Option Nat) → Option (List Nat)
  | [] => some []
  | none :: _ => none
  | some x :: rest => (seqOpt rest).map (fun l => x :: l)

/-- The browser's `btoa` on a code-unit list: throws (`none`) when any unit is
above 255 (`InvalidCharacterError`), else yields the base64 character codes. -/
def btoaJS (units : List Nat) : Option (List Nat) :=
  if units.all (fun b => decide (b ≤ 255)) then
    some ((b64enc units).map b64CodeOfSextet)
  else none

/-- The browser's `atob` on a code-unit list: maps each character back to its
base64 symbol (failing on characters outside the alphabet) and reassembles the
bytes.  Length-validation of malformed input is elided: in this development
`atob` only ever receives `btoa` output. -/
def atobJS (chars : List Nat) : Option (List Nat) :=
  (seqOpt (chars.map b64SextetOfCode)).map b64dec

/-- The `xorEncrypt` function (part_006 lines 10-18): XOR the text with the
key, then `btoa` the result.  `none` models the `InvalidCharacterError` that
`btoa` throws when a XORed unit exceeds 255 (xorEncrypt has no try/catch). -/
def xorEncrypt (text key : List Nat) : Option (List Nat) :=
  btoaJS (jsXor text key)

/-- The `xorDecrypt` function (part_006 lines 20-33): `atob` then XOR; the
surrounding try/catch turns any `atob` failure into the empty string. -/
def xorDecrypt (encoded key : List Nat) : List Nat :=
  match atobJS encoded with
  | some text => jsXor text key
  | none => []

/-- Code units of the `"sk-"` API-key marker. -/
def skCodes : List Nat := strCodes ("sk-")

/-- The `getEncryptionKey` function (part_006 lines 36-38):
the template literal `dc_${userId}_key`. -/
def getEncryptionKey (userId : List Nat) : List Nat :=
  strCodes ("dc_") ++ userId ++ strCodes ("_key")

/-- JavaScript's `String.prototype.startsWith` on code-unit lists. -/
def startsWithSeg : List Nat → List Nat → Bool
  | _, [] => true
  | [], _ :: _ => false
  | a :: as, b :: bs => a == b && startsWithSeg as bs

/-- The `getStoredApiKey` function (part_006 lines 207-218), as a function of
the stored `localStorage` entry: decrypt with the user-derived key and return
the result only when it is a non-empty string starting with `"sk-"` (the
JS guard `decrypted && decrypted.startsWith("sk-")`). -/
def getStoredApiKey (stored : Option (List Nat)) (userId : List Nat) : Option (List Nat) :=
  match stored with
  | none => none
  | some encrypted =>
    let decrypted := xorDecrypt encrypted (getEncryptionKey userId)
    if !decrypted.isEmpty && startsWithSeg decrypted skCodes then some decrypted else none

/-- The value `handleSave` writes to `localStorage` (part_006 line 88):
`xorEncrypt(apiKey, getEncryptionKey(userId))`. -/
def savedApiKeyEntry (apiKey userId : List Nat) : Option (List Nat) :=
  xorEncrypt apiKey (getEncryptionKey userId)

/- ============== Grid store notifications (src/unnamed/part_008) ============== -/

/-- The `addNotification` store action (part_008 lines 158-167) acting on the
`notifications` field: `[...state.notifications.slice(-4), newNotification]`.
JavaScript `slice(-4)` keeps the last four entries, which is
`drop (length - 4)` with truncated subtraction.  The generated `id` and
`Date.now()` timestamp are taken as given in `n`. -/
def addNotification (notifications : List NotificationData) (n : NotificationData) :
    List NotificationData :=
  notifications.drop (notifications.length - 4) ++ [n]

/-- The `removeNotification` store action (part_008 lines 169-173). -/
def removeNotification (notifications : List NotificationData) (id : String) :
    List NotificationData :=
  notifications.filter (fun n => !(n.id == id))

/-- The `clearNotifications` store action (part_008 line 175). -/
def clearNotifications : List NotificationData := []

/- ============ summarizeForUI reductions (src/app/actions.tsx) ============ -/

/-- Index of a threat level in the source's `threatOrder` array
`["trivial", "normal", "dangerous", "deadly"]` (its `indexOf`). -/
def threatIdx : ThreatLevel → Nat
  | ThreatLevel.trivial => 0
  | ThreatLevel.normal => 1
  | ThreatLevel.dangerous => 2
  | ThreatLevel.deadly => 3

/-- Index of a rarity in the source's `rarityOrder` array
`["common", "uncommon", "rare", "legendary"]` (its `indexOf`). -/
def rarityIdx : ItemRarity → Nat
  | ItemRarity.common => 0
  | ItemRarity.uncommon => 1
  | ItemRarity.rare => 2
  | ItemRarity.legendary => 3

/-- The shape shared by the two `reduce` callbacks in `summarizeForUI`
(actions.tsx lines 78-82 and 87-91): skip elements without a value, adopt the
first value seen, then keep the larger index. -/
def jsMaxFoldStep (idx : α → Nat) (get : β → Option α) (max : Option α) (b : β) : Option α :=
  match get b with
  | none => max
  | some t =>
    match max with
    | none => some t
    | some mx => if idx mx < idx t then some t else some mx

/-- The `maxThreat` reduce callback of `summarizeForUI` (actions.tsx
lines 78-82): `if (!m.threat) return max; if (!max) return m.threat;
return indexOf(m.threat) > indexOf(max) ? m.threat : max`. -/
def maxThreatStep (max : Option ThreatLevel) (m : MonsterView) : Option ThreatLevel :=
  match m.threat with
  | none => max
  | some t =>
    match max with
    | none => some t
    | some mx => if threatIdx mx < threatIdx t then some t else some mx

/-- The `maxThreat` value computed in `summarizeForUI`:
`gameState.monsters?.reduce(..., undefined)` - `none` when the `monsters`
field itself is absent. -/
def maxThreat (monsters : Option (List MonsterView)) : Option ThreatLevel :=
  match monsters with
  | none => none
  | some ms => ms.foldl maxThreatStep none

/-- The `highestRarity` reduce callback of `summarizeForUI` (actions.tsx
lines 87-91). -/
def highestRarityStep (max : Option ItemRarity) (item : ItemView) : Option ItemRarity :=
  match item.rarity with
  | none => max
  | some r =>
    match max with
    | none => some r
    | some mx => if rarityIdx mx < rarityIdx r then some r else some mx

/-- The `highestRarity` value computed in `summarizeForUI` over
`allItems = [...(roomItems ?? []), ...(inventory ?? [])]` (actions.tsx
lines 85-91). -/
def highestRarity (roomItems inventory : Option (List ItemView)) : Option ItemRarity :=
  ((roomItems.getD []) ++ (inventory.getD [])).foldl highestRarityStep none

/- ========== Command-interpreter prompt (src/app/actions.tsx 35-53) ========== -/

/-- Newline separator for assembling the prompt. -/
def promptNewline : String := "\n"

/-- The lines of `COMMAND_SYSTEM_PROMPT` (actions.tsx lines 35-53), verbatim. -/
def commandSystemPromptLines : List String :=
  [ "You are a command interpreter for a dungeon crawler game. Parse user commands and call the appropriate tool. Do NOT add any narrative or description - just call tools silently.",
    "",
    "## Tools",
    "- mcp_new_game: \"new game\", \"start\", \"begin\" (extract character name or use \"Hero\")",
    "- mcp_look: \"look\", \"examine\", \"l\"",
    "- mcp_move: \"go/move north/south/east/west\", \"n/s/e/w\"",
    "- mcp_attack: \"attack [monster]\" (use monster ID from gameState.monsters)",
    "- mcp_take: \"take/pick up [item]\" (use item ID from gameState.roomItems)",
    "- mcp_use: \"use/drink [item]\" (use item ID from gameState.inventory)",
    "- mcp_equip: \"equip/wear [item]\" (use item ID from gameState.inventory)",
    "- mcp_inventory: \"inventory\", \"i\"",
    "- mcp_stats: \"stats\", \"status\"",
    "- mcp_map: \"map\", \"m\"",
    "",
    "## Rules",
    "1. Call the appropriate tool based on the command",
    "2. Use exact IDs from gameState for monsters/items",
    "3. Do NOT output any text - just call tools",
    "4. If command is unclear, call mcp_look" ]

/-- The `COMMAND_SYSTEM_PROMPT` template literal (actions.tsx lines 35-53). -/
def COMMAND_SYSTEM_PROMPT : String :=
  String.intercalate promptNewline commandSystemPromptLines

/-- The fragment of the prompt's `mcp_new_game` line that instructs the
`"Hero"` default for free-text commands. -/
def heroDefaultInstruction : String :=
  "(extract character name or use \"Hero\")"

/-- Whether `needle` occurs as a contiguous segment of `hay`. -/
def containsSeg (hay needle : List Char) : Bool :=
  (decide (needle.length = 0)) ||
  match hay with
  | [] => false
  | _ :: t => startsWithChars hay needle || containsSeg t needle
where
  /-- Whether `needle` is an initial segment of `hay`. -/
  startsWithChars : List Char → List Char → Bool
    | _, [] => true
    | [], _ :: _ => false
    | a :: as, b :: bs => a == b && startsWithChars as bs

/- ===================== Concrete fixtures for witnesses ===================== -/

/-- A healthy, living test character. -/
def heroAlive : CharacterView :=
  { id := "c1", name := "Hero", hp := 20, maxHp := 20, strength := 5, dexterity := 5,
    isAlive := true, status := CharStatus.healthy }

/-- A dead test character. -/
def heroDead : CharacterView :=
  { id := "c1", name := "Hero", hp := 0, maxHp := 20, strength := 5, dexterity := 5,
    isAlive := false, status := CharStatus.dead }

/-- A test room with a single north exit. -/
def roomWithNorthExit : RoomView :=
  { id := "r1", name := "Cave", description := "A damp cave.", isEntrance := true,
    isExit := false, x := 0, y := 0, exits := ["north"], atmosphere := none,
    isFirstVisit := none }

/-- A defeated goblin (zero HP, defeated flag set) still present in the
room's monster list. -/
def deadGoblin : MonsterView :=
  { id := "m1", name := "Goblin", description := "A slain goblin.", hp := 0, maxHp := 6,
    damage := 2, threat := some ThreatLevel.trivial, isDefeated := some true }

/-- A live goblin with normal threat. -/
def liveGoblin : MonsterView :=
  { id := "m2", name := "Goblin", description := "A goblin.", hp := 6, maxHp := 6,
    damage := 2, threat := some ThreatLevel.normal, isDefeated := none }

/-- A live drake with dangerous threat. -/
def liveDrake : MonsterView :=
  { id := "m3", name := "Drake", description := "A drake.", hp := 15, maxHp := 15,
    damage := 5, threat := some ThreatLevel.dangerous, isDefeated := none }

/-- An unequipped weapon sitting in the inventory. -/
def ironSword : ItemView :=
  { id := "i1", name := "Iron Sword", description := "A plain sword.",
    type := ItemType.weapon, damage := some 4, armor := none, healing := none,
    isEquipped := false, rarity := some ItemRarity.uncommon, isNew := none }

/-- A snapshot with every optional field absent. -/
def emptySnapshot : GameStateSnapshot :=
  { character := none, currentRoom := none, monsters := none, roomItems := none,
    inventory := none, equipment := none, mapGrid := none, gameOver := false,
    victory := false, turnNumber := 0, message := none, event := none,
    combatResult := none, inventoryDelta := none, context := none }

/-- Active game, a room with an exit, and only a defeated monster in the list. -/
def stateDeadMonster : GameStateSnapshot :=
  { emptySnapshot with
    character := some heroAlive
    currentRoom := some roomWithNorthExit
    monsters := some [deadGoblin] }

/-- Active game, a room with an exit, and an empty monster list. -/
def stateCleared : GameStateSnapshot :=
  { emptySnapshot with
    character := some heroAlive
    currentRoom := some roomWithNorthExit
    monsters := some [] }

/-- A dead character holding an unequipped weapon. -/
def stateDeadWithSword : GameStateSnapshot :=
  { emptySnapshot with
    character := some heroDead
    gameOver := true
    inventory := some [ironSword] }

/-- The enemy's swing, as reported inside a combat result. -/
def goblinSlash : AttackResult :=
  { attackerName := "Goblin", targetName := "Hero", damage := 2, wasHit := true,
    wasCritical := false, remainingHp := 18 }

/-- The player's killing blow. -/
def heroStrike : AttackResult :=
  { attackerName := "Hero", targetName := "Goblin", damage := 6, wasHit := true,
    wasCritical := false, remainingHp := 0 }

/-- A combat result whose exchange defeated the enemy (with an `enemyAttack`
value present, to exercise the guard). -/
def finishingBlow : EnhancedCombatResult :=
  { playerAttack := some heroStrike, enemyAttack := some goblinSlash,
    enemyDefeated := true, playerDied := false }

/-- A sample API key for the storage round trip. -/
def apiKeySample : List Nat := strCodes ("sk-test-123")

/-- A sample user id for the storage round trip. -/
def userIdSample : List Nat := strCodes ("12345")

/-- A sample notification. -/
def sampleNote : NotificationData :=
  { id := "n1", type := NotificationType.info, title := "Game Event",
    message := "You entered the cave.", timestamp := 0 }

/- ======================= Helper lemmas on rendering ======================= -/

/-- Filtering a mapped list by a predicate rejecting every image gives `[]`. -/
theorem filter_map_of_false {α β : Type} (f : α → β) (p : β → Bool)
    (h : ∀ a, p (f a) = false) (l : List α) : (l.map f).filter p = [] := by
  induction l with
  | nil => rfl
  | cons a t ih => simp [List.filter_cons, h a, ih]

/-- Filtering a mapped list by a predicate accepting every image keeps it. -/
theorem filter_map_of_true {α β : Type} (f : α → β) (p : β → Bool)
    (h : ∀ a, p (f a) = true) (l : List α) : (l.map f).filter p = l.map f := by
  induction l with
  | nil => rfl
  | cons a t ih => simp [List.filter_cons, h a, ih]

/-- A guarded mapped block filters to `[]` when the predicate rejects every
image, whatever the guard. -/
theorem filter_if_map_of_false {α β : Type} (c : Prop) [Decidable c] (f : α → β) (p : β → Bool)
    (h : ∀ a, p (f a) = false) (l : List α) :
    (if c then l.map f else []).filter p = [] := by
  split
  · exact filter_map_of_false f p h l
  · rfl

/-- The New Game block filters to `[]` under any predicate rejecting
`newGameAction`, whatever the guard. -/
theorem newGamePart_filter_none (gs : Option GameStateSnapshot) (p : GameAction → Bool)
    (h : p newGameAction = false) : (newGamePart gs).filter p = [] := by
  unfold newGamePart
  split
  · simp [List.filter_cons, h]
  · rfl

/-- The Movement block, restated: a non-empty monster list suppresses it, and
otherwise it renders one move button per exit (the guard's
`exits.length > 0` test is absorbed by `List.map` on the empty list). -/
theorem movementPart_eq (gs : Option GameStateSnapshot) :
    movementPart gs = if monstersOf gs = [] then (exitsOf gs).map moveAction else [] := by
  unfold movementPart
  by_cases hm : monstersOf gs = []
  · cases hex : exitsOf gs <;> simp [hm, hex]
  · have hlen : (monstersOf gs).length ≠ 0 := by
      intro h0
      exact hm (List.length_eq_zero.mp h0)
    simp [hm, hlen]

/-- The Equip block, restated: the guard's length test is redundant. -/
theorem equipPart_eq (gs : Option GameStateSnapshot) :
    equipPart gs = (equippablesOf gs).map equipAction := by
  unfold equipPart
  cases he : equippablesOf gs <;> simp [he]

/- ====================== C2: no retaliation when defeated ====================== -/

/-- C2: for every `EnhancedCombatResult` with `enemyDefeated = true`, the
`CombatResult` component renders no enemy-attack block - an enemy retaliation
is never displayed in the exchange that defeated the enemy. -/
theorem c2_no_retaliation_block (result : EnhancedCombatResult)
    (h : result.enemyDefeated = true) :
    CombatBlock.enemyAttackBlock ∉ combatResultBlocks result := by
  unfold combatResultBlocks
  rw [h]
  cases hpa : result.playerAttack.isSome <;> cases hpd : result.playerDied <;>
    simp [hpa, hpd]

/-- Witness for C2 at a concrete finishing blow (with `enemyAttack` data
present, so the guard - not the absence of data - is what suppresses it). -/
theorem c2_no_retaliation_block_witness :
    finishingBlow.enemyDefeated = true ∧
    CombatBlock.enemyAttackBlock ∉ combatResultBlocks finishingBlow :=
  ⟨rfl, c2_no_retaliation_block finishingBlow rfl⟩

/- ===================== C3: tool-call request contract ===================== -/

/-- C3: `callTool` issues `POST /mcp/call` with body exactly
`{ name, arguments }`, and each of the ten wrappers calls it with the
documented tool name and argument keys (empty object for argument-less
tools). -/
theorem c3_call_tool_contract (name characterName direction targetId itemId : String)
    (args : List (String × String)) :
    MCPClient.callTool name args =
      { method := "POST", path := "/mcp/call", body := some { name := name, arguments := args } } ∧
    MCPClient.newGame characterName =
      MCPClient.callTool ("new_game") [("character_name", characterName)] ∧
    MCPClient.look = MCPClient.callTool ("look") [] ∧
    MCPClient.move direction = MCPClient.callTool ("move") [("direction", direction)] ∧
    MCPClient.attack targetId = MCPClient.callTool ("attack") [("target_id", targetId)] ∧
    MCPClient.take itemId = MCPClient.callTool ("take") [("item_id", itemId)] ∧
    MCPClient.use itemId = MCPClient.callTool ("use") [("item_id", itemId)] ∧
    MCPClient.equip itemId = MCPClient.callTool ("equip") [("item_id", itemId)] ∧
    MCPClient.inventory = MCPClient.callTool ("inventory") [] ∧
    MCPClient.stats = MCPClient.callTool ("stats") [] ∧
    MCPClient.map = MCPClient.callTool ("map") [] :=
  ⟨rfl, rfl, rfl, rfl, rfl, rfl, rfl, rfl, rfl, rfl, rfl⟩

/- ================== C4: New Game button availability ================== -/

/-- C4: for every game state with no character, or with `gameOver`, or with
`victory`, `ActionButtons` renders the New Game button; and with no character
at all it is the only button rendered. -/
theorem c4_new_game_button (gs : Option GameStateSnapshot) :
    ((hasGame gs = false ∨ isGameOverOf gs = true ∨ isVictoryOf gs = true) →
      newGameAction ∈ actionButtons gs) ∧
    (hasGame gs = false → actionButtons gs = [newGameAction]) := by
  constructor
  · intro h
    have hc : (!(hasGame gs) || isGameOverOf gs || isVictoryOf gs) = true := by
      rcases h with h | h | h <;> simp [h]
    unfold actionButtons newGamePart
    rw [hc]
    simp
  · intro h
    unfold actionButtons newGamePart activePart
    rw [h]
    simp

/-- Witness for C4 at the null game state. -/
theorem c4_new_game_button_witness :
    newGameAction ∈ actionButtons none ∧ actionButtons none = [newGameAction] :=
  ⟨(c4_new_game_button none).1 (Or.inl rfl), (c4_new_game_button none).2 rfl⟩

/- ========================= C7: health check ========================= -/

/-- C7: `healthCheck` issues `GET /health` and returns `true` exactly when a
response arrived with an OK (2xx) status; every network failure or thrown
error yields `false` rather than an exception. -/
theorem c7_health_check (outcome : FetchOutcome) :
    healthCheckRequest.method = "GET" ∧ healthCheckRequest.path = "/health" ∧
    (healthCheck outcome = true ↔
      ∃ r, outcome = FetchOutcome.response r ∧ r.ok = true) ∧
    healthCheck FetchOutcome.networkError = false := by
  refine ⟨rfl, rfl, ?_, rfl⟩
  cases outcome with
  | response r =>
    constructor
    · intro h
      exact ⟨r, rfl, h⟩
    · rintro ⟨r2, heq, h2⟩
      cases heq
      exact h2
  | networkError =>
    constructor
    · intro h
      exact absurd h (by simp [healthCheck])
    · rintro ⟨r2, heq, h2⟩
      cases heq

/-- Membership in a guarded mapped block pins down the action's tool. -/
theorem tool_of_mem_if_map {α : Type} (c : Prop) [Decidable c] (f : α → GameAction)
    (l : List α) (t : String) (h : ∀ x, (f x).tool = t) {a : GameAction}
    (hm : a ∈ (if c then l.map f else [])) : a.tool = t := by
  split at hm
  · rcases List.mem_map.mp hm with ⟨x, _, rfl⟩
    exact h x
  · simp at hm

/- ================== C1: movement suppression by monsters ================== -/

/-- C1 counterexample: an active game state whose room has an exit and whose
monster list holds only a defeated monster (zero HP, `isDefeated` set).  No
monster is alive, yet the component renders no move buttons - `ActionButtons`
tests `monsters.length === 0`, not aliveness. -/
theorem c1_dead_monster_blocks_movement :
    hasGame (some stateDeadMonster) = true ∧
    isAliveOf (some stateDeadMonster) = true ∧
    isVictoryOf (some stateDeadMonster) = false ∧
    exitsOf (some stateDeadMonster) = ["north"] ∧
    monstersOf (some stateDeadMonster) = [deadGoblin] ∧
    monsterIsAlive deadGoblin = false ∧
    deadGoblin.isDefeated = some true ∧
    movesRendered (some stateDeadMonster) = [] := by
  refine ⟨rfl, rfl, rfl, rfl, rfl, rfl, rfl, ?_⟩
  decide

/-- C1 (amended): within an active game (character present and alive, victory
not set), `ActionButtons` renders one move button per exit exactly when the
room's monster list is empty; any monster in the list - alive or defeated -
suppresses all move buttons (the component never consults aliveness). -/
theorem c1_move_buttons (gs : Option GameStateSnapshot)
    (hgame : hasGame gs = true) (halive : isAliveOf gs = true)
    (hvic : isVictoryOf gs = false) :
    movesRendered gs =
      if monstersOf gs = [] then (exitsOf gs).map moveAction else [] := by
  have hng : (newGamePart gs).filter (fun a => a.tool == "move") = [] :=
    newGamePart_filter_none gs _ (by decide)
  have hgen : generalPart.filter (fun a => a.tool == "move") = [] := by decide
  have hcb : (combatPart gs).filter (fun a => a.tool == "move") = [] := by
    unfold combatPart
    exact filter_if_map_of_false _ attackAction (fun a => a.tool == "move") (fun m => rfl) _
  have htk : (takePart gs).filter (fun a => a.tool == "move") = [] := by
    unfold takePart
    exact filter_if_map_of_false _ takeAction (fun a => a.tool == "move") (fun i => rfl) _
  have hus : (usePart gs).filter (fun a => a.tool == "move") = [] := by
    unfold usePart
    exact filter_if_map_of_false _ useAction (fun a => a.tool == "move") (fun i => rfl) _
  have heqp : (equipPart gs).filter (fun a => a.tool == "move") = [] := by
    rw [equipPart_eq]
    exact filter_map_of_false equipAction (fun a => a.tool == "move") (fun i => rfl) _
  have hmv : (movementPart gs).filter (fun a => a.tool == "move") =
      if monstersOf gs = [] then (exitsOf gs).map moveAction else [] := by
    rw [movementPart_eq]
    by_cases hm : monstersOf gs = []
    · rw [if_pos hm]
      exact filter_map_of_true moveAction (fun a => a.tool == "move") (fun d => rfl) _
    · rw [if_neg hm]
      rfl
  have hactive : activePart gs =
      generalPart ++ movementPart gs ++ combatPart gs ++ takePart gs ++
        usePart gs ++ equipPart gs := by
    unfold activePart
    rw [hgame, halive, hvic]
    rfl
  unfold movesRendered actionButtons
  rw [List.filter_append, hng, List.nil_append, hactive]
  rw [List.filter_append, List.filter_append, List.filter_append, List.filter_append,
    List.filter_append]
  rw [hgen, hcb, htk, hus, heqp, hmv]
  simp

/-- Witness for C1 (amended) at a concrete active state with an exit and a
cleared monster list. -/
theorem c1_move_buttons_witness :
    movesRendered (some stateCleared) =
      if monstersOf (some stateCleared) = [] then
        (exitsOf (some stateCleared)).map moveAction
      else [] :=
  c1_move_buttons (some stateCleared) rfl rfl rfl

/- ====================== C5: equip button correspondence ====================== -/

/-- C5 (amended): in active game states (character present and alive, victory
not set) the equip buttons are exactly one per inventory item of type weapon or
armor with `isEquipped` false; in all other states no equip buttons are
rendered, even when such items exist. -/
theorem c5_equip_buttons (gs : Option GameStateSnapshot) :
    equipsRendered gs =
      if hasGame gs && isAliveOf gs && !(isVictoryOf gs) then
        (equippablesOf gs).map equipAction
      else [] := by
  have hng : (newGamePart gs).filter (fun a => a.tool == "equip") = [] :=
    newGamePart_filter_none gs _ (by decide)
  unfold equipsRendered actionButtons
  rw [List.filter_append, hng, List.nil_append]
  unfold activePart
  by_cases hactive : (hasGame gs && isAliveOf gs && !(isVictoryOf gs)) = true
  · rw [if_pos hactive, if_pos hactive]
    rw [List.filter_append, List.filter_append, List.filter_append, List.filter_append,
      List.filter_append]
    have hgen : generalPart.filter (fun a => a.tool == "equip") = [] := by decide
    have hmv : (movementPart gs).filter (fun a => a.tool == "equip") = [] := by
      rw [movementPart_eq]
      by_cases hm : monstersOf gs = []
      · rw [if_pos hm]
        exact filter_map_of_false moveAction (fun a => a.tool == "equip") (fun d => rfl) _
      · rw [if_neg hm]
        rfl
    have hcb : (combatPart gs).filter (fun a => a.tool == "equip") = [] := by
      unfold combatPart
      exact filter_if_map_of_false _ attackAction (fun a => a.tool == "equip") (fun m => rfl) _
    have htk : (takePart gs).filter (fun a => a.tool == "equip") = [] := by
      unfold takePart
      exact filter_if_map_of_false _ takeAction (fun a => a.tool == "equip") (fun i => rfl) _
    have hus : (usePart gs).filter (fun a => a.tool == "equip") = [] := by
      unfold usePart
      exact filter_if_map_of_false _ useAction (fun a => a.tool == "equip") (fun i => rfl) _
    have heqp : (equipPart gs).filter (fun a => a.tool == "equip") =
        (equippablesOf gs).map equipAction := by
      rw [equipPart_eq]
      exact filter_map_of_true equipAction (fun a => a.tool == "equip") (fun i => rfl) _
    rw [hgen, hmv, hcb, htk, hus, heqp]
    simp
  · rw [if_neg hactive, if_neg hactive]
    rfl

/-- C5 counterexample: a state whose character is dead still holds an
unequipped weapon in inventory, yet no equip button is rendered - the original
claim's "every such item gets an equip button" fails outside active states. -/
theorem c5_dead_state_no_equip_buttons :
    ironSword.type = ItemType.weapon ∧
    ironSword.isEquipped = false ∧
    inventoryOf (some stateDeadWithSword) = [ironSword] ∧
    isAliveOf (some stateDeadWithSword) = false ∧
    equipsRendered (some stateDeadWithSword) = [] := by
  refine ⟨rfl, rfl, rfl, rfl, ?_⟩
  decide

/- ==================== C6: the "Hero" default name ==================== -/

set_option maxRecDepth 100000 in
/-- C6: every new_game action issued from `ActionButtons` carries exactly the
non-empty character name "Hero", and the command-interpreter system prompt
contains the instruction to default the character name to "Hero". -/
theorem c6_hero_default (gs : Option GameStateSnapshot) (a : GameAction)
    (hmem : a ∈ actionButtons gs) (htool : a.tool = "new_game") :
    a.args = [("character_name", "Hero")] ∧
    ("Hero" : String).length > 0 ∧
    containsSeg COMMAND_SYSTEM_PROMPT.toList heroDefaultInstruction.toList = true := by
  have ha : a = newGameAction := by
    unfold actionButtons at hmem
    rcases List.mem_append.mp hmem with h | h
    · unfold newGamePart at h
      split at h
      · simpa using h
      · simp at h
    · unfold activePart at h
      split at h
      · simp only [List.mem_append] at h
        have htool2 : a.tool ≠ "new_game" := by
          rcases h with ((((hg | hm) | hc) | ht) | hu) | he
          · unfold generalPart at hg
            simp only [List.mem_cons, List.not_mem_nil, or_false] at hg
            rcases hg with rfl | rfl | rfl | rfl <;> decide
          · unfold movementPart at hm
            rw [tool_of_mem_if_map _ moveAction _ "move" (fun d => rfl) hm]
            decide
          · unfold combatPart at hc
            rw [tool_of_mem_if_map _ attackAction _ "attack" (fun m => rfl) hc]
            decide
          · unfold takePart at ht
            rw [tool_of_mem_if_map _ takeAction _ "take" (fun i => rfl) ht]
            decide
          · unfold usePart at hu
            rw [tool_of_mem_if_map _ useAction _ "use" (fun i => rfl) hu]
            decide
          · unfold equipPart at he
            rw [tool_of_mem_if_map _ equipAction _ "equip" (fun i => rfl) he]
            decide
        exact absurd htool htool2
      · simp at h
  subst ha
  refine ⟨rfl, by decide, by decide⟩

set_option maxRecDepth 100000 in
/-- Witness for C6 at the null game state, where the New Game button renders. -/
theorem c6_hero_default_witness :
    newGameAction ∈ actionButtons none ∧
    newGameAction.args = [("character_name", "Hero")] ∧
    ("Hero" : String).length > 0 ∧
    containsSeg COMMAND_SYSTEM_PROMPT.toList heroDefaultInstruction.toList = true := by
  have hmem : newGameAction ∈ actionButtons none := by decide
  exact ⟨hmem, c6_hero_default none newGameAction hmem rfl⟩

/- ===================== C9: notification list bound ===================== -/

/-- C9: `addNotification` keeps at most the four most recent entries before
appending (its result never exceeds five entries), `removeNotification` and
`clearNotifications` only shrink the list, so the five-entry bound is an
invariant preserved by every notification operation of the store. -/
theorem c9_notifications_bound (l : List NotificationData) (n : NotificationData)
    (id : String) :
    (addNotification l n).length ≤ 5 ∧
    (addNotification l n).length = min l.length 4 + 1 ∧
    (removeNotification l id).length ≤ l.length ∧
    clearNotifications.length = 0 ∧
    (l.length ≤ 5 →
      (addNotification l n).length ≤ 5 ∧ (removeNotification l id).length ≤ 5 ∧
        clearNotifications.length ≤ 5) := by
  have hadd : (addNotification l n).length = min l.length 4 + 1 := by
    unfold addNotification
    rw [List.length_append, List.length_drop]
    simp only [List.length_singleton]
    omega
  have hrem : (removeNotification l id).length ≤ l.length :=
    List.length_filter_le _ l
  exact ⟨by omega, hadd, hrem, rfl, fun h => ⟨by omega, by omega, by decide⟩⟩

/-- Witness for C9 at a list already holding five notifications. -/
theorem c9_notifications_bound_witness :
    (List.replicate 5 sampleNote).length ≤ 5 ∧
    (addNotification (List.replicate 5 sampleNote) sampleNote).length ≤ 5 := by
  refine ⟨by decide, ?_⟩
  exact ((c9_notifications_bound (List.replicate 5 sampleNote) sampleNote
    sampleNote.id).2.2.2.2 (by decide)).1

/- ============== C10: maxThreat / highestRarity are maxima ============== -/

/-- A fold of `jsMaxFoldStep` started from `some a` never yields `none`. -/
theorem jsMaxFold_some_of_some {α β : Type} (idx : α → Nat) (get : β → Option α)
    (l : List β) : ∀ a : α, ∃ t, l.foldl (jsMaxFoldStep idx get) (some a) = some t := by
  induction l with
  | nil => exact fun a => ⟨a, rfl⟩
  | cons b l ih =>
    intro a
    rw [List.foldl_cons]
    cases hb : get b with
    | none =>
      rw [show jsMaxFoldStep idx get (some a) b = some a from by
        unfold jsMaxFoldStep
        rw [hb]]
      exact ih a
    | some v =>
      have hstep : jsMaxFoldStep idx get (some a) b =
          some (if idx a < idx v then v else a) := by
        unfold jsMaxFoldStep
        rw [hb]
        show (if idx a < idx v then some v else some a) =
          some (if idx a < idx v then v else a)
        split <;> rfl
      rw [hstep]
      exact ih _

/-- A fold of `jsMaxFoldStep` from `none` yields `none` exactly when no element
carries a value. -/
theorem jsMaxFold_none_iff {α β : Type} (idx : α → Nat) (get : β → Option α)
    (l : List β) :
    l.foldl (jsMaxFoldStep idx get) none = none ↔ l.filterMap get = [] := by
  induction l with
  | nil => simp
  | cons b l ih =>
    cases hb : get b with
    | none =>
      have hstep : jsMaxFoldStep idx get none b = none := by
        unfold jsMaxFoldStep
        rw [hb]
      rw [List.foldl_cons, hstep]
      simp only [List.filterMap_cons, hb]
      exact ih
    | some v =>
      have hstep : jsMaxFoldStep idx get none b = some v := by
        unfold jsMaxFoldStep
        rw [hb]
      rw [List.foldl_cons, hstep]
      simp only [List.filterMap_cons, hb]
      obtain ⟨t, ht⟩ := jsMaxFold_some_of_some idx get l v
      rw [ht]
      simp

/-- What a fold of `jsMaxFoldStep` returns: a value drawn from the accumulator
or from the list, at least as large under `idx` as the accumulator and as
every value in the list. -/
theorem jsMaxFold_spec {α β : Type} (idx : α → Nat) (get : β → Option α)
    (l : List β) :
    ∀ (acc : Option α) (t : α), l.foldl (jsMaxFoldStep idx get) acc = some t →
      (acc = some t ∨ t ∈ l.filterMap get) ∧
      (∀ a, acc = some a → idx a ≤ idx t) ∧
      (∀ u ∈ l.filterMap get, idx u ≤ idx t) := by
  induction l with
  | nil =>
    intro acc t h
    simp only [List.foldl_nil] at h
    subst h
    refine ⟨Or.inl rfl, ?_, ?_⟩
    · intro a ha
      cases ha
      exact Nat.le_refl _
    · intro u hu
      simp at hu
  | cons b l ih =>
    intro acc t h
    rw [List.foldl_cons] at h
    cases hb : get b with
    | none =>
      have hstep : jsMaxFoldStep idx get acc b = acc := by
        unfold jsMaxFoldStep
        rw [hb]
      rw [hstep] at h
      obtain ⟨h1, h2, h3⟩ := ih acc t h
      refine ⟨?_, h2, ?_⟩
      · simpa [List.filterMap_cons, hb] using h1
      · intro u hu
        simp only [List.filterMap_cons, hb] at hu
        exact h3 u hu
    | some v =>
      cases acc with
      | none =>
        have hstep : jsMaxFoldStep idx get none b = some v := by
          unfold jsMaxFoldStep
          rw [hb]
        rw [hstep] at h
        obtain ⟨h1, h2, h3⟩ := ih (some v) t h
        have hv : idx v ≤ idx t := h2 v rfl
        refine ⟨Or.inr ?_, ?_, ?_⟩
        · simp only [List.filterMap_cons, hb, List.mem_cons]
          rcases h1 with h1 | h1
          · exact Or.inl (Option.some.inj h1).symm
          · exact Or.inr h1
        · intro a ha
          cases ha
        · intro u hu
          simp only [List.filterMap_cons, hb, List.mem_cons] at hu
          rcases hu with rfl | hu
          · exact hv
          · exact h3 u hu
      | some a0 =>
        have hstep : jsMaxFoldStep idx get (some a0) b =
            some (if idx a0 < idx v then v else a0) := by
          unfold jsMaxFoldStep
          rw [hb]
          show (if idx a0 < idx v then some v else some a0) =
            some (if idx a0 < idx v then v else a0)
          split <;> rfl
        rw [hstep] at h
        obtain ⟨h1, h2, h3⟩ := ih _ t h
        have hw : idx (if idx a0 < idx v then v else a0) ≤ idx t := h2 _ rfl
        have ha0w : idx a0 ≤ idx (if idx a0 < idx v then v else a0) := by
          split <;> omega
        have hvw : idx v ≤ idx (if idx a0 < idx v then v else a0) := by
          split <;> omega
        refine ⟨?_, ?_, ?_⟩
        · rcases h1 with h1 | h1
          · have hval := Option.some.inj h1
            by_cases hlt : idx a0 < idx v
            · rw [if_pos hlt] at hval
              refine Or.inr ?_
              simp only [List.filterMap_cons, hb, List.mem_cons]
              exact Or.inl hval.symm
            · rw [if_neg hlt] at hval
              exact Or.inl (by rw [hval])
          · refine Or.inr ?_
            simp only [List.filterMap_cons, hb, List.mem_cons]
            exact Or.inr h1
        · intro a ha
          cases ha
          omega
        · intro u hu
          simp only [List.filterMap_cons, hb, List.mem_cons] at hu
          rcases hu with rfl | hu
          · omega
          · exact h3 u hu

/-- The threat reduce callback is an instance of the generic step. -/
theorem maxThreatStep_eq : maxThreatStep = jsMaxFoldStep threatIdx MonsterView.threat := by
  funext mx m
  unfold maxThreatStep jsMaxFoldStep
  cases hm : m.threat with
  | none => rfl
  | some t =>
    cases mx with
    | none => rfl
    | some mx0 => rfl

/-- The rarity reduce callback is an instance of the generic step. -/
theorem highestRarityStep_eq :
    highestRarityStep = jsMaxFoldStep rarityIdx ItemView.rarity := by
  funext mx item
  unfold highestRarityStep jsMaxFoldStep
  cases hr : item.rarity with
  | none => rfl
  | some r =>
    cases mx with
    | none => rfl
    | some mx0 => rfl

/-- C10: `maxThreat` is the maximum of the monsters' defined threat values
under the trivial-normal-dangerous-deadly order, and `highestRarity` the
maximum of the defined rarities over roomItems followed by inventory under the
common-uncommon-rare-legendary order; each is undefined exactly when no
element carries a value. -/
theorem c10_max_threat_rarity (monsters : Option (List MonsterView))
    (roomItems inventory : Option (List ItemView)) :
    (maxThreat monsters = none ↔
      (monsters.getD []).filterMap MonsterView.threat = []) ∧
    (∀ t, maxThreat monsters = some t →
      t ∈ (monsters.getD []).filterMap MonsterView.threat ∧
      ∀ u ∈ (monsters.getD []).filterMap MonsterView.threat,
        threatIdx u ≤ threatIdx t) ∧
    (highestRarity roomItems inventory = none ↔
      ((roomItems.getD []) ++ (inventory.getD [])).filterMap ItemView.rarity = []) ∧
    (∀ r, highestRarity roomItems inventory = some r →
      r ∈ ((roomItems.getD []) ++ (inventory.getD [])).filterMap ItemView.rarity ∧
      ∀ u ∈ ((roomItems.getD []) ++ (inventory.getD [])).filterMap ItemView.rarity,
        rarityIdx u ≤ rarityIdx r) := by
  refine ⟨?_, ?_, ?_, ?_⟩
  · cases monsters with
    | none => simp [maxThreat]
    | some ms =>
      simp only [maxThreat, Option.getD_some]
      rw [maxThreatStep_eq]
      exact jsMaxFold_none_iff threatIdx MonsterView.threat ms
  · intro t ht
    cases monsters with
    | none => simp [maxThreat] at ht
    | some ms =>
      simp only [maxThreat] at ht
      rw [maxThreatStep_eq] at ht
      obtain ⟨h1, _, h3⟩ := jsMaxFold_spec threatIdx MonsterView.threat ms none t ht
      rcases h1 with h1 | h1
      · cases h1
      · simp only [Option.getD_some]
        exact ⟨h1, h3⟩
  · unfold highestRarity
    rw [highestRarityStep_eq]
    exact jsMaxFold_none_iff rarityIdx ItemView.rarity _
  · intro r hr
    unfold highestRarity at hr
    rw [highestRarityStep_eq] at hr
    obtain ⟨h1, _, h3⟩ := jsMaxFold_spec rarityIdx ItemView.rarity _ none r hr
    rcases h1 with h1 | h1
    · cases h1
    · exact ⟨h1, h3⟩

/-- Witness for C10: two concrete monsters whose maximum defined threat is
dangerous, with the membership fact extracted through the theorem. -/
theorem c10_max_threat_rarity_witness :
    maxThreat (some [liveGoblin, liveDrake]) = some ThreatLevel.dangerous ∧
    ThreatLevel.dangerous ∈
      ((some [liveGoblin, liveDrake] : Option (List MonsterView)).getD []).filterMap
        MonsterView.threat := by
  have hmax : maxThreat (some [liveGoblin, liveDrake]) = some ThreatLevel.dangerous := by
    decide
  exact ⟨hmax,
    ((c10_max_threat_rarity (some [liveGoblin, liveDrake]) none none).2.1
      ThreatLevel.dangerous hmax).1⟩

/- ===================== C8: API-key cipher round trip ===================== -/

/-- The XOR pass is an involution at every starting index. -/
theorem jsXorAux_invol (key : List Nat) (klen : Nat) :
    ∀ (l : List Nat) (i : Nat), jsXorAux key klen i (jsXorAux key klen i l) = l := by
  intro l
  induction l with
  | nil => intro i; rfl
  | cons c cs ih =>
    intro i
    simp only [jsXorAux]
    rw [Nat.xor_cancel_right, ih]

/-- Decrypt-after-encrypt at the XOR layer restores the text. -/
theorem jsXor_invol (text key : List Nat) : jsXor (jsXor text key) key = text :=
  jsXorAux_invol key key.length text 0

/-- A default-0 lookup in a Latin-1-bounded list is Latin-1-bounded. -/
theorem getD_le_255 (key : List Nat) (hk : ∀ c ∈ key, c ≤ 255) (j : Nat) :
    key.getD j 0 ≤ 255 := by
  induction key generalizing j with
  | nil => simp [List.getD]
  | cons c cs ih =>
    cases j with
    | zero => simpa using hk c (List.mem_cons_self c cs)
    | succ j =>
      have h := ih (fun x hx => hk x (List.mem_cons_of_mem c hx)) j
      simpa [List.getD] using h

/-- The XOR of two Latin-1 code units is a Latin-1 code unit. -/
theorem xor_le_255 (a b : Nat) (ha : a ≤ 255) (hb : b ≤ 255) : a ^^^ b ≤ 255 := by
  have h256 : (2 : Nat) ^ 8 = 256 := by norm_num
  have ha2 : a < 2 ^ 8 := by omega
  have hb2 : b < 2 ^ 8 := by omega
  have h := Nat.xor_lt_two_pow ha2 hb2
  omega

/-- The XOR pass preserves Latin-1 boundedness. -/
theorem jsXorAux_le (key : List Nat) (klen : Nat) (hk : ∀ c ∈ key, c ≤ 255) :
    ∀ (l : List Nat) (i : Nat), (∀ c ∈ l, c ≤ 255) →
      ∀ c ∈ jsXorAux key klen i l, c ≤ 255 := by
  intro l
  induction l with
  | nil =>
    intro i h c hc
    simp [jsXorAux] at hc
  | cons x xs ih =>
    intro i h c hc
    simp only [jsXorAux, List.mem_cons] at hc
    rcases hc with rfl | hc
    · exact xor_le_255 _ _ (h x (List.mem_cons_self x xs)) (getD_le_255 key hk _)
    · exact ih (i + 1) (fun y hy => h y (List.mem_cons_of_mem x hy)) c hc

/-- `jsXor` preserves Latin-1 boundedness. -/
theorem jsXor_le (text key : List Nat) (ht : ∀ c ∈ text, c ≤ 255)
    (hk : ∀ c ∈ key, c ≤ 255) : ∀ c ∈ jsXor text key, c ≤ 255 :=
  jsXorAux_le key key.length hk text 0 ht

/-- Every symbol `b64enc` emits on Latin-1 bytes is at most 64. -/
theorem b64enc_le (l : List Nat) :
    (∀ b ∈ l, b ≤ 255) → ∀ s ∈ b64enc l, s ≤ 64 := by
  induction l using b64enc.induct with
  | case1 =>
    intro _ s hs
    simp [b64enc] at hs
  | case2 b0 =>
    intro h s hs
    have hb0 : b0 ≤ 255 := h b0 (by simp)
    simp only [b64enc, List.mem_cons, List.not_mem_nil, or_false] at hs
    rcases hs with rfl | rfl | rfl | rfl <;> omega
  | case3 b0 b1 =>
    intro h s hs
    have hb0 : b0 ≤ 255 := h b0 (by simp)
    have hb1 : b1 ≤ 255 := h b1 (by simp)
    simp only [b64enc, List.mem_cons, List.not_mem_nil, or_false] at hs
    rcases hs with rfl | rfl | rfl | rfl <;> omega
  | case4 b0 b1 b2 rest ih =>
    intro h s hs
    have hb0 : b0 ≤ 255 := h b0 (by simp)
    have hb1 : b1 ≤ 255 := h b1 (by simp)
    have hb2 : b2 ≤ 255 := h b2 (by simp)
    simp only [b64enc, List.mem_cons] at hs
    rcases hs with rfl | rfl | rfl | rfl | hs
    · omega
    · omega
    · omega
    · omega
    · exact ih (fun b hb => h b (by simp [hb])) s hs

/-- Base64 decode inverts encode on Latin-1 bytes. -/
theorem b64dec_b64enc (l : List Nat) :
    (∀ b ∈ l, b ≤ 255) → b64dec (b64enc l) = l := by
  induction l using b64enc.induct with
  | case1 =>
    intro _
    rfl
  | case2 b0 =>
    intro h
    have hb0 : b0 ≤ 255 := h b0 (by simp)
    simp only [b64enc, b64dec]
    rw [if_pos trivial]
    rw [show b0 / 4 * 4 + b0 % 4 * 16 / 16 = b0 from by omega]
  | case3 b0 b1 =>
    intro h
    have hb0 : b0 ≤ 255 := h b0 (by simp)
    have hb1 : b1 ≤ 255 := h b1 (by simp)
    simp only [b64enc, b64dec]
    rw [if_neg (by omega), if_pos trivial]
    rw [show b0 / 4 * 4 + (b0 % 4 * 16 + b1 / 16) / 16 = b0 from by omega]
    rw [show (b0 % 4 * 16 + b1 / 16) % 16 * 16 + b1 % 16 * 4 / 4 = b1 from by omega]
  | case4 b0 b1 b2 rest ih =>
    intro h
    have hb0 : b0 ≤ 255 := h b0 (by simp)
    have hb1 : b1 ≤ 255 := h b1 (by simp)
    have hb2 : b2 ≤ 255 := h b2 (by simp)
    simp only [b64enc, b64dec]
    rw [if_neg (by omega), if_neg (by omega)]
    rw [show b0 / 4 * 4 + (b0 % 4 * 16 + b1 / 16) / 16 = b0 from by omega]
    rw [show (b0 % 4 * 16 + b1 / 16) % 16 * 16 + (b1 % 16 * 4 + b2 / 64) / 4 = b1 from by
      omega]
    rw [show (b1 % 16 * 4 + b2 / 64) % 4 * 64 + b2 % 64 = b2 from by omega]
    rw [ih (fun b hb => h b (by simp [hb]))]

set_option maxRecDepth 10000 in
/-- Symbol-to-character-to-symbol is the identity on base64 symbols. -/
theorem b64_sextet_code_inv :
    ∀ s : Nat, s ≤ 64 → b64SextetOfCode (b64CodeOfSextet s) = some s := by
  decide

/-- Sequencing a mapped list whose function succeeds pointwise with the
identity. -/
theorem seqOpt_map_some (g : Nat → Option Nat) (l : List Nat)
    (h : ∀ x ∈ l, g x = some x) : seqOpt (l.map g) = some l := by
  induction l with
  | nil => rfl
  | cons x xs ih =>
    rw [List.map_cons, h x (List.mem_cons_self x xs)]
    simp only [seqOpt]
    rw [ih (fun y hy => h y (List.mem_cons_of_mem x hy))]
    rfl

/-- `atob` inverts `btoa` on Latin-1 input (and `btoa` succeeds there). -/
theorem atob_btoa (bytes : List Nat) (h : ∀ b ∈ bytes, b ≤ 255) :
    btoaJS bytes = some ((b64enc bytes).map b64CodeOfSextet) ∧
    atobJS ((b64enc bytes).map b64CodeOfSextet) = some bytes := by
  constructor
  · unfold btoaJS
    rw [if_pos ?_]
    rw [List.all_eq_true]
    intro x hx
    exact decide_eq_true (h x hx)
  · unfold atobJS
    rw [List.map_map]
    rw [seqOpt_map_some (b64SextetOfCode ∘ b64CodeOfSextet) (b64enc bytes)
      (fun s hs => b64_sextet_code_inv s (b64enc_le bytes h s hs))]
    rw [show (some (b64enc bytes)).map b64dec = some (b64dec (b64enc bytes)) from rfl]
    rw [b64dec_b64enc bytes h]

/-- Full encrypt/decrypt round trip for Latin-1 text and key. -/
theorem xor_roundtrip (text key : List Nat) (ht : ∀ c ∈ text, c ≤ 255)
    (hk : ∀ c ∈ key, c ≤ 255) :
    xorEncrypt text key = some ((b64enc (jsXor text key)).map b64CodeOfSextet) ∧
    xorDecrypt ((b64enc (jsXor text key)).map b64CodeOfSextet) key = text := by
  have hu : ∀ c ∈ jsXor text key, c ≤ 255 := jsXor_le text key ht hk
  obtain ⟨h1, h2⟩ := atob_btoa (jsXor text key) hu
  constructor
  · unfold xorEncrypt
    exact h1
  · unfold xorDecrypt
    rw [h2]
    exact jsXor_invol text key

/-- Evaluation of `getStoredApiKey` on a present entry. -/
theorem getStoredApiKey_some (e userId : List Nat) :
    getStoredApiKey (some e) userId =
      (if !(xorDecrypt e (getEncryptionKey userId)).isEmpty &&
          startsWithSeg (xorDecrypt e (getEncryptionKey userId)) skCodes then
        some (xorDecrypt e (getEncryptionKey userId))
      else none) := rfl

/-- C8 (amended): the XOR/base64 storage cipher round-trips for every
plaintext and every key whose code units are all Latin-1 (at most 255); in
particular a saved "sk-"-prefixed Latin-1 API key is recovered exactly by
`getStoredApiKey` for the same user id.  (A key with a code unit above 255
makes `btoa` throw instead - see the counterexample.) -/
theorem c8_cipher_roundtrip (text key apiKey userId : List Nat)
    (ht : ∀ c ∈ text, c ≤ 255) (hk : ∀ c ∈ key, c ≤ 255)
    (ha : ∀ c ∈ apiKey, c ≤ 255) (hu : ∀ c ∈ userId, c ≤ 255)
    (hsk : startsWithSeg apiKey skCodes = true) :
    (∃ e, xorEncrypt text key = some e ∧ xorDecrypt e key = text) ∧
    (∃ e, savedApiKeyEntry apiKey userId = some e ∧
      getStoredApiKey (some e) userId = some apiKey) := by
  have hdc : ∀ c ∈ strCodes ("dc_"), c ≤ 255 := by decide
  have hsuf : ∀ c ∈ strCodes ("_key"), c ≤ 255 := by decide
  have hkey2 : ∀ c ∈ getEncryptionKey userId, c ≤ 255 := by
    intro c hc
    unfold getEncryptionKey at hc
    simp only [List.mem_append] at hc
    rcases hc with (hc | hc) | hc
    · exact hdc c hc
    · exact hu c hc
    · exact hsuf c hc
  have hne : apiKey.isEmpty = false := by
    cases apiKey with
    | nil => simp [startsWithSeg, skCodes, strCodes] at hsk
    | cons c cs => rfl
  obtain ⟨he1, hd1⟩ := xor_roundtrip text key ht hk
  obtain ⟨he2, hd2⟩ := xor_roundtrip apiKey (getEncryptionKey userId) ha hkey2
  refine ⟨⟨(b64enc (jsXor text key)).map b64CodeOfSextet, he1, hd1⟩,
    ⟨(b64enc (jsXor apiKey (getEncryptionKey userId))).map b64CodeOfSextet, ?_, ?_⟩⟩
  · unfold savedApiKeyEntry
    exact he2
  · rw [getStoredApiKey_some, hd2, hne, hsk]
    rfl

/-- Witness for C8 (amended) at a concrete API key and user id. -/
theorem c8_cipher_roundtrip_witness :
    getStoredApiKey (savedApiKeyEntry apiKeySample userIdSample) userIdSample =
      some apiKeySample := by
  obtain ⟨-, ⟨e, he, hg⟩⟩ := c8_cipher_roundtrip apiKeySample userIdSample apiKeySample
    userIdSample (by decide) (by decide) (by decide) (by decide) (by decide)
  rw [he]
  exact hg

/-- C8 counterexample: with the Latin-1 plaintext "a" (code 97) and a key
whose single code unit is 256, the XORed unit exceeds 255, so `btoa` throws
`InvalidCharacterError` and `xorEncrypt` produces no ciphertext at all: the
round trip fails for this key although the plaintext satisfies the claim's
bound. -/
theorem c8_key_above_latin1_throws :
    (97 : Nat) ≤ 255 ∧ xorEncrypt [97] [256] = none :=
  ⟨by decide, by decide⟩
